import Mathlib

/-!
Shallow embedding of `src/static/webrtcclient.js` (a two-party WebRTC
signaling client) and verification of its specification claims.

The JavaScript module keeps four mutable globals (`peerConnection`,
`dataChannel`, `room`, `socket`) and a handful of DOM fields
(`localVideo.srcObject`, `remoteVideo.srcObject`, `dataChannelInput.value`,
`dataChannelOutput.value`).  We model them as one `ClientState` record.
Each handler of the source is translated into a function
`ClientState → Outcome`, where an `Outcome` carries the successor state,
the ordered trace of externally observable actions (signaling emissions,
Negotiation Engine calls, track stops, channel sends), and an optional
JavaScript error.  A `typeError` models the exception raised when the
source dereferences a `null`/`undefined` handle (e.g. `srcObject.getTracks()`
after `srcObject = null`); `channelNotOpen` models the engine's
InvalidStateError raised by `RTCDataChannel.send` outside the open state
(the spec calls it `ChannelNotOpen`).  Effects that the source performs
before the throwing statement are kept in the outcome, matching JavaScript
evaluation order.
-/

namespace WebRTCClient

/-- Severity-free model of the JavaScript exceptions relevant here. -/
inductive JsError where
  /-- Dereferencing `null`/`undefined` (e.g. `x.f()` with `x` unset). -/
  | typeError
  /-- `RTCDataChannel.send` invoked while the channel is not open
      (browser InvalidStateError; the spec names it `ChannelNotOpen`). -/
  | channelNotOpen
deriving DecidableEq, Repr

/-- `RTCDataChannel.readyState` values. -/
inductive ChanState where
  | connecting
  | opened
  | closing
  | closed
deriving DecidableEq, Repr

/-- Model of an `RTCDataChannel` handle: only its ready state matters here. -/
structure Channel where
  readyState : ChanState
deriving DecidableEq, Repr

/-- A media track; `stopped` records whether `track.stop()` has run. -/
structure Track where
  stopped : Bool
deriving DecidableEq, Repr

/-- A `MediaStream`: a list of tracks. -/
structure MediaStream where
  tracks : List Track
deriving DecidableEq, Repr

/-- Model of an `RTCPeerConnection` handle.  We record the descriptions and
    candidates that have been applied to the engine through it. -/
structure PeerConn where
  localDescs : List String
  remoteDescs : List String
  remoteCands : List String
deriving DecidableEq, Repr

/-- Signaling messages emitted by the client (`socket.emit` calls).
    `join` and `bye` carry the `room` global, which is `none` while unset
    (JavaScript `undefined`) or when `prompt` returned `null`. -/
inductive SigMsg where
  | join (room : Option String)
  | invite (offer : String)
  | ok (answer : String)
  | iceCandidate (c : String)
  | bye (room : Option String)
deriving DecidableEq, Repr

/-- Externally observable actions, in the order the source performs them. -/
inductive Action where
  /-- `socket.emit(...)` on the Signaling Transport. -/
  | emit (m : SigMsg)
  /-- `navigator.mediaDevices.getUserMedia` attempt. -/
  | getUserMedia
  /-- `navigator.mediaDevices.getDisplayMedia` attempt (fallback). -/
  | getDisplayMedia
  /-- `peerConnection.addTrack(track, localStream)`. -/
  | addTrack
  /-- `peerConnection.createDataChannel("data channel")`. -/
  | createDataChannel
  /-- `peerConnection.createOffer()`. -/
  | createOffer
  /-- `peerConnection.createAnswer()`. -/
  | createAnswer
  /-- `peerConnection.setLocalDescription(d)`. -/
  | setLocalDescription (d : String)
  /-- `peerConnection.setRemoteDescription(d)`. -/
  | setRemoteDescription (d : String)
  /-- `peerConnection.addIceCandidate(c)`. -/
  | addIceCandidate (c : String)
  /-- `track.stop()` on a video sink's stream. -/
  | trackStop
  /-- `peerConnection.close()`. -/
  | pcClose
  /-- `dataChannel.close()`. -/
  | dcClose
  /-- `dataChannel.send(s)`. -/
  | channelSend (s : String)
deriving DecidableEq, Repr

/-- Resource-release actions of teardown: track stops and handle closes. -/
def Action.isRelease : Action → Bool
  | .trackStop => true
  | .pcClose => true
  | .dcClose => true
  | _ => false

/-- The client's mutable state: the module globals `room`, `peerConnection`,
    `dataChannel` and the DOM fields the script reads/writes.  `none` models
    JavaScript `null`/`undefined`. -/
structure ClientState where
  room : Option String
  peerConnection : Option PeerConn
  dataChannel : Option Channel
  localVideoSrc : Option MediaStream
  remoteVideoSrc : Option MediaStream
  inputField : String
  outputField : String
deriving DecidableEq, Repr

/-- Result of running one handler: successor state, ordered action trace,
    and the error it threw, if any (effects before the throw are kept). -/
structure Outcome where
  state : ClientState
  trace : List Action
  err : Option JsError
deriving DecidableEq, Repr

/-- The environment seen by `enable_camera`: whether `getUserMedia` and
    `getDisplayMedia` resolve (`some` stream) or reject (`none`). -/
structure MediaEnv where
  userMedia : Option MediaStream
  displayMedia : Option MediaStream
deriving DecidableEq, Repr

/-- `enable_camera()`: try `getUserMedia`; on error try `getDisplayMedia`;
    on a second error only log — `stream` stays `undefined` and is still
    assigned to `localVideo.srcObject` and returned.  Returns the stream
    (possibly `none`), the new state and the attempt trace. -/
def enable_camera (env : MediaEnv) (st : ClientState) :
    Option MediaStream × ClientState × List Action :=
  match env.userMedia with
  | some s => (some s, { st with localVideoSrc := some s }, [Action.getUserMedia])
  | none =>
    match env.displayMedia with
    | some s =>
        (some s, { st with localVideoSrc := some s },
         [Action.getUserMedia, Action.getDisplayMedia])
    | none =>
        (none, { st with localVideoSrc := none },
         [Action.getUserMedia, Action.getDisplayMedia])

/-- `call_room(socket)`: `room = prompt(...)`; if `room != ''` emit
    `join`.  `promptResult = none` models the user cancelling the prompt
    (JavaScript `null`, for which `null != ''` is true, so `join` is still
    emitted, carrying `null`). -/
def call_room (st : ClientState) (promptResult : Option String) :
    ClientState × List Action :=
  let st1 := { st with room := promptResult }
  if promptResult = some "" then (st1, [])
  else (st1, [Action.emit (SigMsg.join promptResult)])

/-- `create_peerconnection(localStream)`: build a fresh `RTCPeerConnection`
    and add every track of `localStream`.  If `localStream` is `undefined`
    (both media attempts failed), `localStream.getTracks()` throws a
    TypeError before the connection is assigned to the global. -/
def create_peerconnection (localStream : Option MediaStream)
    (st : ClientState) : Outcome :=
  match localStream with
  | none => ⟨st, [], some JsError.typeError⟩
  | some s =>
      ⟨{ st with peerConnection := some ⟨[], [], []⟩ },
       s.tracks.map (fun _ => Action.addTrack), none⟩

/-- `call()` (the spec's `start()`): `enable_camera`, then create the
    signaling socket and handlers, `call_room` (join emission), then
    `create_peerconnection` on the acquired stream. -/
def call (env : MediaEnv) (promptResult : Option String)
    (st : ClientState) : Outcome :=
  let acq := enable_camera env st
  let joined := call_room acq.2.1 promptResult
  let r := create_peerconnection acq.1 joined.1
  ⟨r.state, acq.2.2 ++ joined.2 ++ r.trace, r.err⟩

/-- `create_datachannel(peerConnection)`: `peerConnection.createDataChannel`
    (TypeError if the handle is unset), store the new channel in the
    `dataChannel` global and attach its handlers. -/
def create_datachannel (st : ClientState) : Outcome :=
  match st.peerConnection with
  | none => ⟨st, [], some JsError.typeError⟩
  | some _ =>
      ⟨{ st with dataChannel := some ⟨ChanState.connecting⟩ },
       [Action.createDataChannel], none⟩

/-- `handle_new_peer(room)` (Caller path): `create_datachannel` first, then
    `createOffer`, `setLocalDescription(offer)`, `emit('invite', offer)`.
    The engine-produced offer blob is opaque; we model it as `"offer"`. -/
def handle_new_peer (st : ClientState) : Outcome :=
  let r := create_datachannel st
  match r.err with
  | some e => ⟨r.state, r.trace, some e⟩
  | none =>
    match r.state.peerConnection with
    | none => ⟨r.state, r.trace, some JsError.typeError⟩
    | some pc =>
      let offer := "offer"
      ⟨{ r.state with
           peerConnection := some { pc with localDescs := pc.localDescs ++ [offer] } },
       r.trace ++ [Action.createOffer, Action.setLocalDescription offer,
                   Action.emit (SigMsg.invite offer)], none⟩

/-- `handle_invite(offer)` (Callee path): unconditionally
    `setRemoteDescription(offer)`, `createAnswer`,
    `setLocalDescription(answer)`, `emit('ok', answer)`.  There is no state
    guard: any received offer is applied whenever the handle exists.  The
    engine-produced answer blob is opaque; we model it as `"answer"`. -/
def handle_invite (st : ClientState) (offer : String) : Outcome :=
  match st.peerConnection with
  | none => ⟨st, [], some JsError.typeError⟩
  | some pc =>
    let answer := "answer"
    ⟨{ st with
         peerConnection := some
           { pc with remoteDescs := pc.remoteDescs ++ [offer],
                     localDescs := pc.localDescs ++ [answer] } },
     [Action.setRemoteDescription offer, Action.createAnswer,
      Action.setLocalDescription answer, Action.emit (SigMsg.ok answer)], none⟩

/-- `handle_ok(answer)` (Caller path): unconditionally
    `setRemoteDescription(answer)`; no state guard. -/
def handle_ok (st : ClientState) (answer : String) : Outcome :=
  match st.peerConnection with
  | none => ⟨st, [], some JsError.typeError⟩
  | some pc =>
      ⟨{ st with
           peerConnection := some { pc with remoteDescs := pc.remoteDescs ++ [answer] } },
       [Action.setRemoteDescription answer], none⟩

/-- `handle_local_icecandidate(event)`: if `event.candidate` is non-null,
    `emit('ice_candidate', candidate)`; otherwise only a console log. -/
def handle_local_icecandidate (st : ClientState)
    (eventCandidate : Option String) : Outcome :=
  match eventCandidate with
  | some c => ⟨st, [Action.emit (SigMsg.iceCandidate c)], none⟩
  | none => ⟨st, [], none⟩

/-- `handle_remote_icecandidate(candidate)`: immediately
    `peerConnection.addIceCandidate(candidate)` — TypeError if the handle
    does not exist yet; there is no queue or buffer anywhere. -/
def handle_remote_icecandidate (st : ClientState) (c : String) : Outcome :=
  match st.peerConnection with
  | none => ⟨st, [], some JsError.typeError⟩
  | some pc =>
      ⟨{ st with
           peerConnection := some { pc with remoteCands := pc.remoteCands ++ [c] } },
       [Action.addIceCandidate c], none⟩

/-- `sendMessage()`: read the input field, clear it, append
    `'        ME: ' + message + '\n'` to the transcript, then
    `dataChannel.send(message)` — TypeError if the handle is `null`/unset,
    InvalidStateError (`channelNotOpen`) if the channel is not open. -/
def sendMessage (st : ClientState) : Outcome :=
  let message := st.inputField
  let st1 := { st with
                 inputField := "",
                 outputField := st.outputField ++ "        ME: " ++ message ++ "\n" }
  match st.dataChannel with
  | none => ⟨st1, [], some JsError.typeError⟩
  | some ch =>
    match ch.readyState with
    | ChanState.opened => ⟨st1, [Action.channelSend message], none⟩
    | _ => ⟨st1, [], some JsError.channelNotOpen⟩

/-- `handle_datachannel_message(event)` (run on the receiving peer): append
    `'PEER: ' + event.data + '\n'` to the transcript. -/
def handle_datachannel_message (st : ClientState) (data : String) : ClientState :=
  { st with outputField := st.outputField ++ "PEER: " ++ data ++ "\n" }

/-- `hangUp()`: emit `bye` with the room, stop all tracks of both video
    sinks, null both sinks, close and null the peer connection, close and
    null the data channel, append the closed marker to the transcript.
    Each `x.getTracks()` / `x.close()` on a `null` handle throws a
    TypeError at that point, keeping the effects already performed. -/
def hangUp (st : ClientState) : Outcome :=
  let tr0 := [Action.emit (SigMsg.bye st.room)]
  match st.localVideoSrc with
  | none => ⟨st, tr0, some JsError.typeError⟩
  | some ls =>
    let tr1 := tr0 ++ ls.tracks.map (fun _ => Action.trackStop)
    let st1 := { st with
                   localVideoSrc := some ⟨ls.tracks.map (fun _ => ⟨true⟩)⟩ }
    match st.remoteVideoSrc with
    | none => ⟨st1, tr1, some JsError.typeError⟩
    | some rs =>
      let tr2 := tr1 ++ rs.tracks.map (fun _ => Action.trackStop)
      let st2 := { st1 with
                     remoteVideoSrc := some ⟨rs.tracks.map (fun _ => ⟨true⟩)⟩ }
      let st3 := { st2 with localVideoSrc := none, remoteVideoSrc := none }
      match st.peerConnection with
      | none => ⟨st3, tr2, some JsError.typeError⟩
      | some _ =>
        let tr3 := tr2 ++ [Action.pcClose]
        let st4 := { st3 with peerConnection := none }
        match st.dataChannel with
        | none => ⟨st4, tr3, some JsError.typeError⟩
        | some _ =>
          ⟨{ st4 with
               dataChannel := none,
               outputField := st.outputField ++ "*** Channel is closed ***\n" },
           tr3 ++ [Action.dcClose], none⟩

/-- The handler registered by `add_signaling_handlers` for the `bye`
    signaling event: `socket.on('bye', () => hangUp())`. -/
def on_bye (st : ClientState) : Outcome :=
  hangUp st

/-! Concrete states used to instantiate the theorems. -/

/-- A fresh client before `call()` ran: every global unset. -/
def stInit : ClientState :=
  { room := none, peerConnection := none, dataChannel := none,
    localVideoSrc := none, remoteVideoSrc := none,
    inputField := "", outputField := "" }

/-- A client that joined room `room1` and created its peer connection,
    before any peer appeared: no data channel yet. -/
def stJoined : ClientState :=
  { room := some "room1", peerConnection := some ⟨[], [], []⟩,
    dataChannel := none,
    localVideoSrc := some ⟨[⟨false⟩]⟩, remoteVideoSrc := none,
    inputField := "", outputField := "" }

/-- A fully connected session: negotiated descriptions, an open data
    channel, both video sinks live, `"hello"` typed in the input field. -/
def stConnected : ClientState :=
  { room := some "room1",
    peerConnection := some ⟨["offer"], ["answer"], []⟩,
    dataChannel := some ⟨ChanState.opened⟩,
    localVideoSrc := some ⟨[⟨false⟩]⟩,
    remoteVideoSrc := some ⟨[⟨false⟩]⟩,
    inputField := "hello", outputField := "" }

/-- Like `stConnected`, but the data channel has not opened yet. -/
def stConnecting : ClientState :=
  { stConnected with dataChannel := some ⟨ChanState.connecting⟩ }

/-- Helper: whatever the state, the trace of `hangUp` starts with the
    `bye` emission carrying the room token. -/
theorem hangUp_trace_bye_head (st : ClientState) :
    ∃ t, (hangUp st).trace = Action.emit (SigMsg.bye st.room) :: t := by
  unfold hangUp
  cases st.localVideoSrc with
  | none => exact ⟨[], rfl⟩
  | some ls =>
    cases st.remoteVideoSrc with
    | none => exact ⟨_, rfl⟩
    | some rs =>
      cases st.peerConnection with
      | none => exact ⟨_, rfl⟩
      | some pc =>
        cases st.dataChannel with
        | none => exact ⟨_, rfl⟩
        | some dc => exact ⟨_, rfl⟩

/-- C6: on the Caller path (`handle_new_peer`), whenever the negotiation
    handle exists, the steps run in the fixed order: create the data
    channel on the engine strictly before offer creation, then create the
    offer, then apply it as local description, then send it to the peer as
    an `invite` — and no error occurs. -/
theorem C6_caller_order (st : ClientState) (pc : PeerConn)
    (h : st.peerConnection = some pc) :
    (handle_new_peer st).trace =
      [Action.createDataChannel, Action.createOffer,
       Action.setLocalDescription "offer", Action.emit (SigMsg.invite "offer")] ∧
    (handle_new_peer st).err = none := by
  simp [handle_new_peer, create_datachannel, h]

/-- C6 witness at a concrete joined state. -/
theorem C6_caller_order_witness :
    (handle_new_peer stJoined).trace =
      [Action.createDataChannel, Action.createOffer,
       Action.setLocalDescription "offer", Action.emit (SigMsg.invite "offer")] ∧
    (handle_new_peer stJoined).err = none :=
  C6_caller_order stJoined ⟨[], [], []⟩ rfl

/-- C7: a local candidate event with a non-null candidate field is
    forwarded immediately as an `ice_candidate` emission (and nothing
    else); a null candidate field (gathering complete) forwards nothing. -/
theorem C7_local_candidate_forwarding (st : ClientState) (c : String) :
    handle_local_icecandidate st (some c) =
      ⟨st, [Action.emit (SigMsg.iceCandidate c)], none⟩ ∧
    handle_local_icecandidate st none = ⟨st, [], none⟩ :=
  ⟨rfl, rfl⟩

/-- C8 counterexample: with the camera available and an empty room token,
    `call()` does not fail at all — it completes without error, emits no
    `join` (its whole trace is the media attempt and the track add), and
    still creates the negotiation handle, so it neither fails with
    `EmptyRoomName` nor aborts. -/
theorem C8_counterexample :
    (call ⟨some ⟨[⟨false⟩]⟩, none⟩ (some "") stInit).err = none ∧
    (call ⟨some ⟨[⟨false⟩]⟩, none⟩ (some "") stInit).state.peerConnection =
      some ⟨[], [], []⟩ ∧
    (call ⟨some ⟨[⟨false⟩]⟩, none⟩ (some "") stInit).trace =
      [Action.getUserMedia, Action.addTrack] :=
  ⟨rfl, rfl, rfl⟩

/-- C8 amended: with media available, an empty room token makes `call()`
    skip the `join` emission silently — no error is raised and the run
    continues, still creating the peer connection (no failure, no abort);
    every non-empty token emits a `join` request carrying that token. -/
theorem C8_empty_room_no_failure (m : MediaStream) (st : ClientState)
    (s : String) :
    ((call ⟨some m, none⟩ (some "") st).err = none ∧
     (call ⟨some m, none⟩ (some "") st).state.peerConnection =
       some ⟨[], [], []⟩ ∧
     ∀ r, Action.emit (SigMsg.join r) ∉ (call ⟨some m, none⟩ (some "") st).trace) ∧
    (s ≠ "" →
      Action.emit (SigMsg.join (some s)) ∈
        (call ⟨some m, none⟩ (some s) st).trace) := by
  constructor
  · refine ⟨?_, ?_, ?_⟩ <;>
      simp [call, enable_camera, call_room, create_peerconnection]
  · intro hs
    simp [call, enable_camera, call_room, create_peerconnection, hs]

/-- C8 witness: the amended theorem at concrete inputs — the empty token
    raises no error, a concrete non-empty token emits its `join`. -/
theorem C8_empty_room_no_failure_witness :
    (call ⟨some ⟨[⟨false⟩]⟩, none⟩ (some "") stInit).err = none ∧
    Action.emit (SigMsg.join (some "lab2")) ∈
      (call ⟨some ⟨[⟨false⟩]⟩, none⟩ (some "lab2") stInit).trace :=
  ⟨(C8_empty_room_no_failure ⟨[⟨false⟩]⟩ stInit "lab2").1.1,
   (C8_empty_room_no_failure ⟨[⟨false⟩]⟩ stInit "lab2").2 (by decide)⟩

/-- C9: the `bye` handler is teardown, whose very first observable action
    is emitting the client's own `bye` carrying the room token; every
    resource-release action (track stop, handle close) in the trace occurs
    strictly after it. -/
theorem C9_bye_rebroadcast_first (st : ClientState) :
    (on_bye st).trace.head? = some (Action.emit (SigMsg.bye st.room)) ∧
    ∀ i a, (on_bye st).trace.get? i = some a → a.isRelease = true → 0 < i := by
  obtain ⟨t, ht⟩ := hangUp_trace_bye_head st
  have hb : (on_bye st).trace = Action.emit (SigMsg.bye st.room) :: t := ht
  constructor
  · rw [hb]
    rfl
  · intro i a ha hrel
    match i with
    | 0 =>
      rw [hb] at ha
      simp at ha
      rw [← ha] at hrel
      simp [Action.isRelease] at hrel
    | Nat.succ n => exact Nat.succ_pos n

/-- C9 witness: at the concrete connected session, the first trace entry
    of the `bye` handler is the re-emitted `bye`, and the release action
    found at position 1 is indeed strictly after position 0. -/
theorem C9_bye_rebroadcast_first_witness :
    (on_bye stConnected).trace.head? =
      some (Action.emit (SigMsg.bye (some "room1"))) ∧ 0 < 1 :=
  ⟨(C9_bye_rebroadcast_first stConnected).1,
   (C9_bye_rebroadcast_first stConnected).2 1 Action.trackStop rfl rfl⟩

/-- C10: every `sendMessage` invocation clears the input field and appends
    the `ME:`-prefixed line to the local transcript, in every branch —
    also when the send itself then fails (missing or non-open channel). -/
theorem C10_ui_updates_even_on_failure (st : ClientState) :
    (sendMessage st).state.inputField = "" ∧
    (sendMessage st).state.outputField =
      st.outputField ++ "        ME: " ++ st.inputField ++ "\n" := by
  unfold sendMessage
  cases st.dataChannel with
  | none => exact ⟨rfl, rfl⟩
  | some ch =>
    cases ch with
    | mk rs => cases rs <;> exact ⟨rfl, rfl⟩

/-- C4: with a data-channel handle present, `sendMessage` fails with
    `channelNotOpen` (and sends nothing) whenever the channel is not open
    — before open or after close — and succeeds when it is open, handing
    the payload to the channel; the peer's message handler then appends
    the payload to its transcript. -/
theorem C4_send_open_window (st : ClientState) (ch : Channel)
    (h : st.dataChannel = some ch) :
    (ch.readyState ≠ ChanState.opened →
      (sendMessage st).err = some JsError.channelNotOpen ∧
      (sendMessage st).trace = []) ∧
    (ch.readyState = ChanState.opened →
      (sendMessage st).err = none ∧
      (sendMessage st).trace = [Action.channelSend st.inputField] ∧
      ∀ peer, (handle_datachannel_message peer st.inputField).outputField =
        peer.outputField ++ "PEER: " ++ st.inputField ++ "\n") := by
  constructor
  · intro hne
    cases hcs : ch.readyState <;> simp_all [sendMessage, h, hcs]
  · intro hcs
    refine ⟨?_, ?_, ?_⟩ <;> simp [sendMessage, handle_datachannel_message, h, hcs]

/-- C4 witness: before open the send fails with `channelNotOpen`; on the
    open channel it succeeds and carries the typed payload. -/
theorem C4_send_open_window_witness :
    (sendMessage stConnecting).err = some JsError.channelNotOpen ∧
    (sendMessage stConnected).err = none ∧
    (sendMessage stConnected).trace = [Action.channelSend "hello"] :=
  ⟨((C4_send_open_window stConnecting ⟨ChanState.connecting⟩ rfl).1 (by decide)).1,
   ((C4_send_open_window stConnected ⟨ChanState.opened⟩ rfl).2 rfl).1,
   ((C4_send_open_window stConnected ⟨ChanState.opened⟩ rfl).2 rfl).2.1⟩

/-- C1 counterexample: at a concrete connected session, the second
    `hangUp` is not a no-op and not error-free — it re-emits `bye` over
    the transport and then throws a TypeError when it dereferences the
    nulled local video sink. -/
theorem C1_counterexample :
    (hangUp (hangUp stConnected).state).err = some JsError.typeError ∧
    (hangUp (hangUp stConnected).state).trace =
      [Action.emit (SigMsg.bye (some "room1"))] :=
  ⟨rfl, rfl⟩

/-- C1 amended: teardown is not idempotent. On any state whose local
    video sink is already detached (as after a first teardown), a second
    `hangUp` emits one more `bye`, then raises a TypeError; no release
    action runs and the state is left unchanged. -/
theorem C1_teardown_not_idempotent (st : ClientState)
    (h : st.localVideoSrc = none) :
    (hangUp st).err = some JsError.typeError ∧
    (hangUp st).state = st ∧
    (hangUp st).trace = [Action.emit (SigMsg.bye st.room)] := by
  unfold hangUp
  rw [h]
  exact ⟨rfl, rfl, rfl⟩

/-- C1 witness: the amended theorem applied to the state left by a first
    teardown of the concrete connected session. -/
theorem C1_teardown_not_idempotent_witness :
    (hangUp stConnected).state.localVideoSrc = none ∧
    (hangUp (hangUp stConnected).state).err = some JsError.typeError ∧
    (hangUp (hangUp stConnected).state).state = (hangUp stConnected).state :=
  ⟨rfl, (C1_teardown_not_idempotent (hangUp stConnected).state rfl).1,
   (C1_teardown_not_idempotent (hangUp stConnected).state rfl).2.1⟩

/-- C2 counterexample: a remote candidate arriving before the negotiation
    handle exists is not queued — the handler throws a TypeError and
    leaves the state unchanged; when the handle is created afterwards,
    nothing is flushed: its applied-candidate list stays empty, so the
    candidate is applied zero times, not exactly once. -/
theorem C2_counterexample :
    (handle_remote_icecandidate stInit "cand1").err = some JsError.typeError ∧
    (handle_remote_icecandidate stInit "cand1").state = stInit ∧
    (create_peerconnection (some ⟨[⟨false⟩]⟩)
        (handle_remote_icecandidate stInit "cand1").state).state.peerConnection =
      some ⟨[], [], []⟩ :=
  ⟨rfl, rfl, rfl⟩

/-- C2 amended: a remote candidate received after the negotiation handle
    exists is applied immediately and exactly once; one received before
    the handle exists raises a TypeError and is dropped — there is no
    queue and no flush. -/
theorem C2_remote_candidate_no_queue (st : ClientState) (c : String) :
    (st.peerConnection = none →
      (handle_remote_icecandidate st c).err = some JsError.typeError ∧
      (handle_remote_icecandidate st c).state = st ∧
      (handle_remote_icecandidate st c).trace = []) ∧
    (∀ pc, st.peerConnection = some pc →
      (handle_remote_icecandidate st c).err = none ∧
      (handle_remote_icecandidate st c).state.peerConnection =
        some { pc with remoteCands := pc.remoteCands ++ [c] } ∧
      (handle_remote_icecandidate st c).trace = [Action.addIceCandidate c]) := by
  constructor
  · intro h
    simp [handle_remote_icecandidate, h]
  · intro pc h
    simp [handle_remote_icecandidate, h]

/-- C2 witness: both branches of the amended theorem at concrete states. -/
theorem C2_remote_candidate_no_queue_witness :
    (handle_remote_icecandidate stInit "c").err = some JsError.typeError ∧
    (handle_remote_icecandidate stConnected "c").err = none :=
  ⟨((C2_remote_candidate_no_queue stInit "c").1 rfl).1,
   ((C2_remote_candidate_no_queue stConnected "c").2
      ⟨["offer"], ["answer"], []⟩ rfl).1⟩

/-- C3 counterexample: a Caller that has just sent its offer (state after
    `handle_new_peer`) receives a second offer; `handle_invite` applies it
    to the engine as remote description, sets an answer, and emits `ok` —
    nothing is discarded and the session state changes. -/
theorem C3_counterexample :
    (handle_invite (handle_new_peer stJoined).state "dupOffer").err = none ∧
    (handle_invite (handle_new_peer stJoined).state "dupOffer").state.peerConnection =
      some ⟨["offer", "answer"], ["dupOffer"], []⟩ ∧
    Action.emit (SigMsg.ok "answer") ∈
      (handle_invite (handle_new_peer stJoined).state "dupOffer").trace := by
  refine ⟨rfl, rfl, ?_⟩
  decide

/-- C3 amended: description-exchange messages are applied unconditionally:
    whenever the negotiation handle exists, `handle_invite` always sets
    the remote description, creates and sets an answer and emits `ok`,
    and `handle_ok` always sets the remote description — there is no
    state guard, no discard and no warning path. -/
theorem C3_descriptions_applied_unconditionally (st : ClientState)
    (pc : PeerConn) (offer answer : String)
    (h : st.peerConnection = some pc) :
    ((handle_invite st offer).err = none ∧
     (handle_invite st offer).state.peerConnection =
       some { pc with remoteDescs := pc.remoteDescs ++ [offer],
                      localDescs := pc.localDescs ++ ["answer"] } ∧
     (handle_invite st offer).trace =
       [Action.setRemoteDescription offer, Action.createAnswer,
        Action.setLocalDescription "answer", Action.emit (SigMsg.ok "answer")]) ∧
    ((handle_ok st answer).err = none ∧
     (handle_ok st answer).state.peerConnection =
       some { pc with remoteDescs := pc.remoteDescs ++ [answer] } ∧
     (handle_ok st answer).trace = [Action.setRemoteDescription answer]) := by
  constructor
  · simp [handle_invite, h]
  · simp [handle_ok, h]

/-- C3 witness: the amended theorem at the concrete joined state. -/
theorem C3_descriptions_applied_unconditionally_witness :
    (handle_invite stJoined "o1").err = none ∧
    (handle_ok stJoined "a1").err = none :=
  ⟨(C3_descriptions_applied_unconditionally stJoined ⟨[], [], []⟩ "o1" "a1" rfl).1.1,
   (C3_descriptions_applied_unconditionally stJoined ⟨[], [], []⟩ "o1" "a1" rfl).2.1⟩

/-- C5 counterexample: with both media attempts failing, `call()` does
    not abort before session setup — it still emits the `join` request to
    the Signaling Transport, and the failure surfaces only later as a
    TypeError (not as a `MediaUnavailable` abort). -/
theorem C5_counterexample :
    (call ⟨none, none⟩ (some "room1") stInit).err = some JsError.typeError ∧
    Action.emit (SigMsg.join (some "room1")) ∈
      (call ⟨none, none⟩ (some "room1") stInit).trace := by
  refine ⟨rfl, ?_⟩
  decide

/-- C5 amended: the camera is attempted first and the screen-share
    fallback only after the camera attempt errors; but when neither can
    be obtained the failure is swallowed — `call()` proceeds to emit the
    `join` request and only then raises a TypeError while building the
    peer connection from the missing stream, leaving no negotiation
    handle. -/
theorem C5_media_failure_swallowed (env : MediaEnv) (p : Option String)
    (st : ClientState) :
    (∀ s, env.userMedia = some s →
      Action.getDisplayMedia ∉ (call env p st).trace) ∧
    (env.userMedia = none → Action.getDisplayMedia ∈ (call env p st).trace) ∧
    (env.userMedia = none → env.displayMedia = none → p ≠ some "" →
      (call env p st).err = some JsError.typeError ∧
      Action.emit (SigMsg.join p) ∈ (call env p st).trace ∧
      (call env p st).state.peerConnection = st.peerConnection) := by
  rcases env with ⟨um, dm⟩
  refine ⟨?_, ?_, ?_⟩
  · rintro s rfl
    by_cases hp : p = some "" <;>
      simp [call, enable_camera, call_room, create_peerconnection, hp]
  · rintro rfl
    rcases dm with _ | s <;> by_cases hp : p = some "" <;>
      simp [call, enable_camera, call_room, create_peerconnection, hp]
  · rintro rfl rfl hp
    simp [call, enable_camera, call_room, create_peerconnection, hp]

/-- C5 witness: the amended theorem at concrete inputs where both media
    attempts fail and the room token is non-empty. -/
theorem C5_media_failure_swallowed_witness :
    Action.getDisplayMedia ∈ (call ⟨none, none⟩ (some "lab") stInit).trace ∧
    (call ⟨none, none⟩ (some "lab") stInit).err = some JsError.typeError ∧
    Action.emit (SigMsg.join (some "lab")) ∈
      (call ⟨none, none⟩ (some "lab") stInit).trace :=
  ⟨(C5_media_failure_swallowed ⟨none, none⟩ (some "lab") stInit).2.1 rfl,
   ((C5_media_failure_swallowed ⟨none, none⟩ (some "lab") stInit).2.2
      rfl rfl (by decide)).1,
   ((C5_media_failure_swallowed ⟨none, none⟩ (some "lab") stInit).2.2
      rfl rfl (by decide)).2.1⟩

end WebRTCClient
